import Mathlib

/-!
# Verification of the remodel address-resolution and type-rewriting engine

Shallow embedding of the core of the remodel library:

* `utils.hpp` — `AnalyzeQualifiers`, `CloneQualifier`, `ApplyQualifierStack`
  (the qualifier-stack derivation / reapplication engine);
* `remodel.hpp` — `OffsGetter`, `AbsGetter`, `VfTableGetter` (address resolvers),
  `WeakWrapper`, `RewriteWrappers` (the view rewriter), `FieldBase` / `FieldImpl` /
  `Field` (the capability dispatcher and field views), `Global`, `Module`;
* `operators.hpp` — the operator-forwarding flag constants and `ForwardByFlags`.

C++ machine integers are modelled as `Nat` / `Int` with explicit reduction
modulo `2^w`; memory is a byte map `Nat → Nat`.
-/

namespace Remodel

/-- The innermost (non-compound) part of a declared C++ type, together with the
type-trait facts the dispatch logic queries on it (`std::is_arithmetic`,
`std::is_enum`, `std::is_convertible<T,int>`, `std::is_class`, `std::is_trivial`,
`std::is_base_of<ClassWrapper, T>`, the `IsAdvWrapper` member marker, `sizeof`). -/
inductive BaseKind
  /-- an arithmetic type: its name, `sizeof`, and the `is_floating_point` /
  `is_unsigned` / `is_same<T,bool>` facts about it. -/
  | arithmetic (name : String) (size : Nat)
      (isFloatingPoint isUnsigned isBool : Bool)
  /-- an enumeration type; `convertsToInt` distinguishes plain enums from
  `enum class` (which does not implicitly convert to `int`). -/
  | enumeration (name : String) (size : Nat) (convertsToInt : Bool)
  /-- a plain (non-wrapper) class/struct type. -/
  | classTy (name : String) (size : Nat) (isTrivial : Bool)
  /-- a type derived from `ClassWrapper`; `objSize = some n` iff it derives from
  `AdvancedClassWrapper<n>` (and hence has the `IsAdvWrapper` marker and
  `kObjSize = n`). -/
  | wrapper (name : String) (objSize : Option Nat)
  /-- Embeds `WeakWrapper<W>` for an advanced wrapper `W` with `kObjSize = objSize`:
  a trivial class holding only `uint8_t m_dummy[kObjSize]` under
  `#pragma pack(1)`, and not derived from `ClassWrapper`. -/
  | weakWrapper (objSize : Nat)
  deriving DecidableEq, Repr

/-- A declared C++ type: a `BaseKind` with const/volatile markings, wrapped in
pointer / lvalue-reference / rvalue-reference / array layers.  Pointer layers
carry their own cv-qualification; array element cv lives on the element type. -/
inductive CppType
  | base (k : BaseKind) (isConst isVolatile : Bool)
  | ptr (t : CppType) (isConst isVolatile : Bool)
  | lref (t : CppType)
  | rref (t : CppType)
  | arr (t : CppType) (n : Nat)
  | arrU (t : CppType)
  deriving DecidableEq, Repr

/-- One entry of a derived qualifier stack.  The source pushes the layer applied
to the holder type `int` (`int*`, `int* const`, `int&`, `int&&`, `int[]`,
`int[N]`, see `REMODEL_ANALYZEQUALIFIERS_SPEC`); we record the layer shape
directly. -/
inductive Layer
  | ptr (isConst isVolatile : Bool)
  | lref
  | rref
  | arrU
  | arr (n : Nat)
  deriving DecidableEq, Repr

/-- Embeds `internal::AnalyzeQualifiersImpl<T, LayerStackT>`: peel layers from the
outside in, pushing each onto the stack (`TypeStack::Push` prepends, so the
head of the list is the top of the stack = the innermost layer), and stop at
the first plain (possibly cv-qualified) type, which is the base type. -/
def analyzeAux : CppType → List Layer → List Layer × CppType
  | .base k c v, stk => (stk, .base k c v)
  | .ptr t c v, stk => analyzeAux t (Layer.ptr c v :: stk)
  | .lref t, stk => analyzeAux t (Layer.lref :: stk)
  | .rref t, stk => analyzeAux t (Layer.rref :: stk)
  | .arr t n, stk => analyzeAux t (Layer.arr n :: stk)
  | .arrU t, stk => analyzeAux t (Layer.arrU :: stk)

/-- Embeds `utils::AnalyzeQualifiers<T>`: the derived `(QualifierStack, BaseType)`
pair, starting from the empty `TypeStack<>`. -/
def analyzeQualifiers (t : CppType) : List Layer × CppType :=
  analyzeAux t []

/-- Effect of `const DstT` (as in `CloneQualifierImpl<DstT, const SrcT>`):
top-level const; on an array it qualifies the element, on a reference it is
ignored. -/
def addConst : CppType → CppType
  | .base k _ v => .base k true v
  | .ptr t _ v => .ptr t true v
  | .lref t => .lref t
  | .rref t => .rref t
  | .arr t n => .arr (addConst t) n
  | .arrU t => .arrU (addConst t)

/-- Effect of `volatile DstT` (as in `CloneQualifierImpl<DstT, volatile SrcT>`). -/
def addVolatile : CppType → CppType
  | .base k c _ => .base k c true
  | .ptr t c _ => .ptr t c true
  | .lref t => .lref t
  | .rref t => .rref t
  | .arr t n => .arr (addVolatile t) n
  | .arrU t => .arrU (addVolatile t)

/-- Embeds `std::remove_const_t` (top-level const removal). -/
def removeConst : CppType → CppType
  | .base k _ v => .base k false v
  | .ptr t _ v => .ptr t false v
  | .lref t => .lref t
  | .rref t => .rref t
  | .arr t n => .arr (removeConst t) n
  | .arrU t => .arrU (removeConst t)

/-- Embeds `std::remove_volatile_t` (top-level volatile removal). -/
def removeVolatile : CppType → CppType
  | .base k c _ => .base k c false
  | .ptr t c _ => .ptr t c false
  | .lref t => .lref t
  | .rref t => .rref t
  | .arr t n => .arr (removeVolatile t) n
  | .arrU t => .arrU (removeVolatile t)

/-- Embeds `utils::CloneQualifier<DstT, SrcT>`: clone the first layer of qualifiers of
`SrcT` onto `DstT`.  Plain (possibly cv-qualified) sources add their cv to
`DstT`; a pointer / reference / array source wraps `DstT` in that layer. -/
def cloneQualifier (dst src : CppType) : CppType :=
  match src with
  | .base _ c v =>
      (if v then addVolatile else id) ((if c then addConst else id) dst)
  | .ptr _ c v => .ptr dst c v
  | .lref _ => .lref dst
  | .rref _ => .rref dst
  | .arr _ n => .arr dst n
  | .arrU _ => .arrU dst

/-- Embeds `CloneQualifier<DstT, holder>` for a stack entry `holder` (the holder types
are `int*`, `int* const`, ..., `int&`, `int&&`, `int[]`, `int[N]`, which hit
exactly the wrapping cases of `CloneQualifierImpl`). -/
def applyLayer (dst : CppType) : Layer → CppType
  | .ptr c v => .ptr dst c v
  | .lref => .lref dst
  | .rref => .rref dst
  | .arr n => .arr dst n
  | .arrU => .arrU dst

/-- Embeds `internal::ApplyQualifierStackImpl<DstT, QualifierStackT>`: while the stack
is non-empty, wrap with `CloneQualifier<DstT, Top>` and pop (so the head of the
list, the innermost layer, is applied first). -/
def applyStackImpl : CppType → List Layer → CppType
  | d, [] => d
  | d, l :: rest => applyStackImpl (applyLayer d l) rest

/-- Embeds `utils::ApplyQualifierStack<DstT, BaseTypeT, QualifierStackT>`: strip
`DstT` to its own base type, drop that base's cv, clone the cv of `BaseTypeT`
onto it, then apply the stack. -/
def applyQualifierStack (dst baseSrc : CppType) (stack : List Layer) : CppType :=
  applyStackImpl
    (cloneQualifier (removeConst (removeVolatile (analyzeQualifiers dst).2)) baseSrc)
    stack

/-- Which qualifier layers the library supports in field declarations
(`&&` and `[]` are rejected; see the qualifier support table in `remodel.hpp`). -/
def Layer.isSupported : Layer → Bool
  | .ptr _ _ => true
  | .lref => true
  | .rref => false
  | .arrU => false
  | .arr _ => true

/-- Embeds `sizeof` on a base type in the 64-bit model.  A strong wrapper stores a
vtable pointer (virtual `~ClassWrapper`) plus `void* m_raw`; `WeakWrapper`
stores only `uint8_t m_dummy[kObjSize]` under `#pragma pack(1)`, so its size
is exactly `kObjSize`. -/
def sizeofBase : BaseKind → Nat
  | .arithmetic _ sz _ _ _ => sz
  | .enumeration _ sz _ => sz
  | .classTy _ sz _ => sz
  | .wrapper _ _ => 16
  | .weakWrapper n => n

/-- Embeds `sizeof` on a declared type (64-bit model, pointers are 8 bytes; `sizeof`
of an unknown-size array is ill-formed, hence `none`; `sizeof` applied to a
reference type yields the size of the referenced type). -/
def sizeofType : CppType → Option Nat
  | .base k _ _ => some (sizeofBase k)
  | .ptr _ _ _ => some 8
  | .lref t => sizeofType t
  | .rref t => sizeofType t
  | .arr t n => (sizeofType t).map (n * ·)
  | .arrU _ => none

/-- Embeds `std::is_base_of<ClassWrapper, BaseTypeT>` on a (possibly cv-qualified)
base type. -/
def isClassWrapperDerived : CppType → Bool
  | .base (.wrapper _ _) _ _ => true
  | _ => false

/-- Embeds `BaseTypeT::kObjSize` when `BaseTypeT::IsAdvWrapper` exists, i.e. the
declared object size when the base is an advanced wrapper, else `none`. -/
def advWrapperObjSize : CppType → Option Nat
  | .base (.wrapper _ sz) _ _ => sz
  | _ => none

/-- The type `WeakWrapper<WrapperT>` built for an advanced wrapper of declared
size `n`. -/
def weakWrapperOf (n : Nat) : CppType :=
  .base (.weakWrapper n) false false

/-- Embeds `internal::RewriteWrappersStep3<BaseTypeT, QualifierStackT>`: for advanced
wrappers, `ApplyQualifierStack<WeakWrapper<BaseTypeT>, BaseTypeT, Stack>`; for
simple (non-advanced) wrappers the `static_assert` fires. -/
def rewriteWrappersStep3 (B : CppType) (S : List Layer) : Except String CppType :=
  match advWrapperObjSize B with
  | some n => .ok (applyQualifierStack (weakWrapperOf n) B S)
  | none =>
      .error "using wrapped types in fields requires usage of AdvancedClassWrapper as base"

/-- Embeds `internal::RewriteWrappersStep2<BaseTypeT, QualifierStackT>`: wrapper bases
go to step 3, everything else is reassembled unchanged via
`ApplyQualifierStack<BaseTypeT, BaseTypeT, Stack>`. -/
def rewriteWrappersStep2 (B : CppType) (S : List Layer) : Except String CppType :=
  if isClassWrapperDerived B then rewriteWrappersStep3 B S
  else .ok (applyQualifierStack B B S)

/-- Embeds `internal::RewriteWrappers<T>`: dissect `T` into base type and qualifier
stack, then run step 2. -/
def rewriteWrappers (t : CppType) : Except String CppType :=
  rewriteWrappersStep2 (analyzeQualifiers t).2 (analyzeQualifiers t).1

/-! ## Operator flag constants (`operators.hpp`) -/

namespace operators

def ASSIGN : Nat := 1 <<< 0
def ADD : Nat := 1 <<< 1
def SUBTRACT : Nat := 1 <<< 2
def MULTIPLY : Nat := 1 <<< 3
def DIVIDE : Nat := 1 <<< 4
def MODULO : Nat := 1 <<< 5
def UNARY_PLUS : Nat := 1 <<< 6
def UNARY_MINUS : Nat := 1 <<< 7
def INCREMENT : Nat := 1 <<< 8
def DECREMENT : Nat := 1 <<< 9

/-- All arithmetic operators. -/
def ARITHMETIC : Nat :=
  ASSIGN ||| ADD ||| SUBTRACT ||| MULTIPLY ||| DIVIDE ||| MODULO
    ||| UNARY_PLUS ||| UNARY_MINUS ||| INCREMENT ||| DECREMENT

def BITWISE_OR : Nat := 1 <<< 10
def BITWISE_AND : Nat := 1 <<< 11
def BITWISE_XOR : Nat := 1 <<< 12
def BITWISE_NOT : Nat := 1 <<< 13
def BITWISE_LEFT_SHIFT : Nat := 1 <<< 14
def BITWISE_RIGHT_SHIFT : Nat := 1 <<< 15

/-- All bitwise operators. -/
def BITWISE : Nat :=
  BITWISE_OR ||| BITWISE_AND ||| BITWISE_XOR ||| BITWISE_NOT
    ||| BITWISE_LEFT_SHIFT ||| BITWISE_RIGHT_SHIFT

def EQ_COMPARE : Nat := 1 <<< 16
def NEQ_COMPARE : Nat := 1 <<< 17
def GT_COMPARE : Nat := 1 <<< 18
def LT_COMPARE : Nat := 1 <<< 19
def GTE_COMPARE : Nat := 1 <<< 20
def LTE_COMPARE : Nat := 1 <<< 21

/-- All comparison operators. -/
def COMPARE : Nat :=
  EQ_COMPARE ||| NEQ_COMPARE ||| GT_COMPARE ||| LT_COMPARE
    ||| GTE_COMPARE ||| LTE_COMPARE

def LOG_NOT : Nat := 1 <<< 22
def LOG_AND : Nat := 1 <<< 23
def LOG_OR : Nat := 1 <<< 24

/-- All logical operators. -/
def LOGICAL : Nat := LOG_NOT ||| LOG_AND ||| LOG_OR

def ARRAY_SUBSCRIPT : Nat := 1 <<< 25
def INDIRECTION : Nat := 1 <<< 26
def ADDRESS_OF : Nat := 1 <<< 27
def STRUCT_DEREFERENCE : Nat := 1 <<< 28
def MEMBER_PTR_DEREFERENCE : Nat := 1 <<< 29
def CALL : Nat := 1 <<< 30
def COMMA : Nat := 1 <<< 31

/-- All operators (`Flags` is `uint32_t`). -/
def ALL : Nat := 0xFFFFFFFF

/-- Embeds `flags & ~mask` at `uint32_t` width (`Flags` is 32 bits wide). -/
def andNot (flags mask : Nat) : Nat :=
  flags &&& (ALL ^^^ mask)

/-- Whether a flag bit is set. -/
def hasFlag (flags mask : Nat) : Prop :=
  flags &&& mask ≠ 0

instance (flags mask : Nat) : Decidable (hasFlag flags mask) := by
  unfold hasFlag; infer_instance

end operators

/-! ## Capability dispatch (`FieldImpl` specializations, `remodel.hpp`) -/

/-- Embeds `std::is_floating_point<T>` on a base kind. -/
def BaseKind.isFloatTrait : BaseKind → Bool
  | .arithmetic _ _ f _ _ => f
  | _ => false

/-- Embeds `std::is_unsigned<T>` on a base kind (false for enums: `is_unsigned` only
holds for arithmetic types; note it is true for `bool`). -/
def BaseKind.isUnsignedTrait : BaseKind → Bool
  | .arithmetic _ _ _ u _ => u
  | _ => false

/-- Embeds `std::is_enum<T>` on a base kind. -/
def BaseKind.isEnumTrait : BaseKind → Bool
  | .enumeration _ _ _ => true
  | _ => false

/-- Embeds `std::is_same<T, bool>` on a base kind. -/
def BaseKind.isBoolTrait : BaseKind → Bool
  | .arithmetic _ _ _ _ b => b
  | _ => false

/-- The `enable_if` condition of the numeric `FieldImpl` specialization:
`is_arithmetic<T> || (is_enum<T> && is_convertible<T, int>)`. -/
def isArithmeticOrConvertibleEnum : BaseKind → Bool
  | .arithmetic _ _ _ _ _ => true
  | .enumeration _ _ conv => conv
  | _ => false

/-- The flag expression of the arithmetic/enum `FieldImpl` specialization:
`(ARITHMETIC | BITWISE | COMMA | COMPARE)
   & ~(is_floating_point ? BITWISE_NOT : 0)
   & ~(is_unsigned ? UNARY_MINUS : 0)
   & ~(is_enum ? INCREMENT | DECREMENT : 0)
   & ~(is_same<T,bool> ? INCREMENT | DECREMENT | BITWISE_NOT : 0)`. -/
def numericFieldFlags (k : BaseKind) : Nat :=
  operators.andNot
    (operators.andNot
      (operators.andNot
        (operators.andNot
          (operators.ARITHMETIC ||| operators.BITWISE ||| operators.COMMA
            ||| operators.COMPARE)
          (if k.isFloatTrait then operators.BITWISE_NOT else 0))
        (if k.isUnsignedTrait then operators.UNARY_MINUS else 0))
      (if k.isEnumTrait then operators.INCREMENT ||| operators.DECREMENT else 0))
    (if k.isBoolTrait then
      operators.INCREMENT ||| operators.DECREMENT ||| operators.BITWISE_NOT
     else 0)

/-- The numeric capability set as the specification's words state it (claim
C7): assignment, add/sub/mul/div/mod, unary plus/minus, increment/decrement,
bitwise or/and/xor/shifts/not, and the full comparison and logical operator
sets, with exactly these suppressions: increment/decrement suppressed for
`bool` and for enumerations, and bitwise-not suppressed for floating-point
types and for `bool`.  Spec-side definition, to be compared with
`numericFieldFlags`, which embeds the code. -/
def specNumericFlags (k : BaseKind) : Nat :=
  operators.andNot
    (operators.andNot
      (operators.ARITHMETIC ||| operators.BITWISE ||| operators.COMPARE
        ||| operators.LOGICAL)
      (if k.isBoolTrait || k.isEnumTrait then
        operators.INCREMENT ||| operators.DECREMENT
       else 0))
    (if k.isFloatTrait || k.isBoolTrait then operators.BITWISE_NOT else 0)

/-- Embeds `std::is_class<T>` (true for plain classes, wrappers and weak wrappers,
regardless of cv). -/
def isClassType : CppType → Bool
  | .base (.classTy _ _ _) _ _ => true
  | .base (.wrapper _ _) _ _ => true
  | .base (.weakWrapper _) _ _ => true
  | _ => false

/-- The flag expression shared by the known-size array and pointer `FieldImpl`
specializations, with `elemIsClass = is_class<element/pointee type>`. -/
def arrayFieldFlags (elemIsClass : Bool) : Nat :=
  operators.ARRAY_SUBSCRIPT ||| operators.INDIRECTION ||| operators.SUBTRACT
    ||| operators.ADD ||| operators.COMMA
    ||| (if elemIsClass then operators.STRUCT_DEREFERENCE else 0)

/-- Which `FieldImpl` specialization a (rewritten) type selects, including the
`static_assert` rejections inside the selected specialization. -/
inductive FieldImplKind
  /-- primary template: `static_assert` "this types is not supported for wrapping" -/
  | fallThroughError
  /-- arithmetic/convertible-enum specialization with its `ForwardByFlags` flags -/
  | numeric (flags : Nat)
  /-- Embeds `T[]`: `static_assert` "unknown size array struct fields are not permitted …" -/
  | unknownArrayError
  /-- Embeds `T[N]` with its `ForwardByFlags` flags -/
  | knownArray (flags : Nat)
  /-- class specialization chosen but `static_assert(is_trivial)` fires -/
  | nonTrivialClassError
  /-- class specialization chosen but `static_assert(!is_base_of<ClassWrapper,T>)`
  (or the array variant of that assert) fires -/
  | internalWrapperError
  /-- trivial non-wrapper class: `get()` / `->` / `Comma` -/
  | classField
  /-- Embeds `enum class`: `Comma` only -/
  | enumClassField
  /-- pointer specialization with its `ForwardByFlags` flags -/
  | pointerField (flags : Nat)
  /-- Embeds `T&&`: `static_assert` "rvalue-reference-fields are not supported" -/
  | rvalueRefError
  deriving DecidableEq, Repr

/-- Dispatch of `internal::FieldImpl<T>` on the (rewritten) type `T`.
Lvalue references match no specialization and fall through to the primary
template's `static_assert`. -/
def fieldImplKind : CppType → FieldImplKind
  | .rref _ => .rvalueRefError
  | .lref _ => .fallThroughError
  | .arrU _ => .unknownArrayError
  | .arr t _ =>
      if isClassWrapperDerived t then .internalWrapperError
      else .knownArray (arrayFieldFlags (isClassType t))
  | .ptr t _ _ => .pointerField (arrayFieldFlags (isClassType t))
  | .base k _ _ =>
      match k with
      | .arithmetic _ _ _ _ _ => .numeric (numericFieldFlags k)
      | .enumeration _ _ conv =>
          if conv then .numeric (numericFieldFlags k) else .enumClassField
      | .classTy _ _ isTrivial =>
          if isTrivial then .classField else .nonTrivialClassError
      | .wrapper _ _ => .internalWrapperError
      | .weakWrapper _ => .classField

/-- The `static_assert` message of a rejecting specialization, `none` when the
specialization compiles. -/
def FieldImplKind.setupErrorMsg : FieldImplKind → Option String
  | .fallThroughError => some "this types is not supported for wrapping"
  | .unknownArrayError =>
      some "unknown size array struct fields are not permitted by the standard"
  | .nonTrivialClassError => some "wrapping is only supported for trivial types"
  | .internalWrapperError => some "internal library error"
  | .rvalueRefError => some "rvalue-reference-fields are not supported"
  | _ => none

/-- Embeds `std::remove_reference_t`. -/
def removeReference : CppType → CppType
  | .lref t => t
  | .rref t => t
  | .base k c v => .base k c v
  | .ptr t c v => .ptr t c v
  | .arr t n => .arr t n
  | .arrU t => .arrU t

/-- Embeds `std::is_reference<T>` (the `kDoExtraDref` constant of `Field<T>`). -/
def isReference : CppType → Bool
  | .lref _ => true
  | .rref _ => true
  | _ => false

/-- Setting up `Field<T>`:
`RewrittenT = RewriteWrappers<remove_reference_t<T>>` is computed, the
`FieldImpl<RewrittenT>` specialization is selected, and
`kDoExtraDref = is_reference<T>` is recorded.  Any `static_assert` on this
path is a setup-time error. -/
def fieldSetup (t : CppType) : Except String (CppType × Bool) :=
  match rewriteWrappers (removeReference t) with
  | .error e => .error e
  | .ok r =>
      match (fieldImplKind r).setupErrorMsg with
      | some e => .error e
      | none => .ok (r, isReference t)

/-! ## Address resolvers and the field base (`remodel.hpp`) -/

/-- Conversion of a `std::ptrdiff_t` value to `uintptr_t` (64-bit model):
reduction modulo `2^64`. -/
def ptrdiffToUintptr (offs : Int) : Nat :=
  (offs % (2 ^ 64 : Int)).toNat

/-- Embeds `OffsGetter{offs}`: `reinterpret_cast<uintptr_t>(raw) + m_offs` computed in
`uintptr_t` arithmetic (unsigned 64-bit wraparound). -/
def offsGetter (offs : Int) (raw : Nat) : Nat :=
  (raw + ptrdiffToUintptr offs) % 2 ^ 64

/-- Embeds `AbsGetter{ptr}`: ignore the raw base, return the stored pointer. -/
def absGetter (ptr : Nat) : Nat → Nat :=
  fun _ => ptr

/-- Byte-addressed memory of the foreign process; each cell is read modulo 256. -/
def Mem : Type := Nat → Nat

/-- Read `k` bytes little-endian starting at `a`. -/
def readBytesLE (m : Mem) (a : Nat) : Nat → Nat
  | 0 => 0
  | k + 1 => m a % 256 + 256 * readBytesLE m (a + 1) k

/-- Write the `k` low-order bytes of `v` little-endian starting at `a`. -/
def writeBytesLE (m : Mem) (a : Nat) (v : Nat) : Nat → Mem
  | 0 => m
  | k + 1 => writeBytesLE (fun x => if x = a then v % 256 else m x) (a + 1) (v / 256) k

/-- A 4-byte (`uint32_t`-sized) load. -/
def readU32 (m : Mem) (a : Nat) : Nat := readBytesLE m a 4

/-- A 4-byte store. -/
def writeU32 (m : Mem) (a : Nat) (v : Nat) : Mem := writeBytesLE m a v 4

/-- An 8-byte (`uintptr_t`-sized) load. -/
def readU64 (m : Mem) (a : Nat) : Nat := readBytesLE m a 8

/-- Embeds `VfTableGetter{vftableIdx, vftableOffset}`: load the vtable pointer at
`raw + m_vftableOffset`, then load slot `m_vftableIdx` of the pointed-to array
of `uintptr_t`-sized entries (`sizeof(uintptr_t) = 8` in the 64-bit model). -/
def vfTableGetter (vftableIdx vftableOffset : Nat) (m : Mem) (raw : Nat) : Nat :=
  readU64 m
    ((readU64 m ((raw + vftableOffset) % 2 ^ 64) + vftableIdx * 8) % 2 ^ 64)

/-- Embeds `ClassWrapper`: its one data member `void* m_raw` (an address value;
`nullptr` is 0). -/
structure ClassWrapper where
  m_raw : Nat
  deriving DecidableEq, Repr

/-- Embeds `FieldBase::rawPtr`:
`m_ptrGetter(this->m_parent ? this->m_parent->m_raw : nullptr)` — a null
parent pointer is never dereferenced; the getter receives 0 instead. -/
def rawPtr (parent : Option ClassWrapper) (ptrGetter : Nat → Nat) : Nat :=
  ptrGetter
    (match parent with
     | some p => p.m_raw
     | none => 0)

/-- The `Global` singleton is constructed as `ClassWrapper{nullptr}`: its bound
raw address is null. -/
def globalInstance : ClassWrapper := ⟨0⟩

/-- The `Module` wrapper: a `ClassWrapper` bound to the module handle address. -/
structure Module where
  m_raw : Nat
  deriving DecidableEq, Repr

/-- Embeds `Module::getModule`: call `platform::obtainModuleHandle` (modelled as a
function returning the handle address, 0 for "module not loaded" / `nullptr`);
return an empty optional on null, else a `Module` wrapped around the handle
(`wrapper_cast<Module>(modulePtr)` binds `m_raw = modulePtr`). -/
def getModule (obtainModuleHandle : String → Nat) (moduleName : String) :
    Option Module :=
  let modulePtr := obtainModuleHandle moduleName
  if modulePtr = 0 then none
  else some ⟨modulePtr⟩

/-! ## `int` (32-bit) value model for numeric fields -/

/-- Two's-complement encoding of an `int` value into its `uint32_t` bit pattern. -/
def encodeI32 (x : Int) : Nat :=
  (x % (2 ^ 32 : Int)).toNat

/-- Two's-complement decoding of a 32-bit pattern into an `int` value. -/
def toI32 (w : Nat) : Int :=
  if w % 2 ^ 32 < 2 ^ 31 then (w % 2 ^ 32 : Int) else (w % 2 ^ 32 : Int) - 2 ^ 32

/-- The value range of `int`. -/
def inI32Range (x : Int) : Prop :=
  -(2 ^ 31) ≤ x ∧ x < 2 ^ 31

instance (x : Int) : Decidable (inI32Range x) := by
  unfold inI32Range; infer_instance

/-- Wrap an integer into the `int` range (two's-complement overflow). -/
def i32wrap (x : Int) : Int :=
  (x + 2 ^ 31) % (2 ^ 32) - 2 ^ 31

/-- C++ `int` addition. -/
def i32add (a b : Int) : Int := i32wrap (a + b)

/-- C++ `int` subtraction. -/
def i32sub (a b : Int) : Int := i32wrap (a - b)

/-- C++ `int` multiplication. -/
def i32mul (a b : Int) : Int := i32wrap (a * b)

/-- C++ `int` division (truncation toward zero). -/
def i32div (a b : Int) : Int := i32wrap (Int.tdiv a b)

/-- C++ `int` remainder (sign follows the dividend). -/
def i32mod (a b : Int) : Int := i32wrap (Int.tmod a b)

/-- C++ `int` bitwise and, on the two's-complement patterns. -/
def i32and (a b : Int) : Int := toI32 (encodeI32 a &&& encodeI32 b)

/-- C++ `int` bitwise or. -/
def i32or (a b : Int) : Int := toI32 (encodeI32 a ||| encodeI32 b)

/-- C++ `int` bitwise xor. -/
def i32xor (a b : Int) : Int := toI32 (encodeI32 a ^^^ encodeI32 b)

/-- C++ `int` left shift (value wraps at 32 bits). -/
def i32shl (a b : Int) : Int := toI32 ((encodeI32 a <<< b.toNat) % 2 ^ 32)

/-- C++ `int` right shift (arithmetic shift = floor division, as on the
library's supported compilers). -/
def i32shr (a b : Int) : Int := i32wrap (Int.fdiv a (2 ^ b.toNat))

/-- A `Field<int>` instance: its parent wrapper and the byte offset handed to
the convenience `OffsGetter` constructor. -/
structure IntField where
  parent : ClassWrapper
  offs : Int

/-- The address the field resolves on an access: `FieldBase::rawPtr` with the
parent's raw pointer and the field's `OffsGetter`. -/
def IntField.addr (f : IntField) : Nat :=
  rawPtr (some f.parent) (offsGetter f.offs)

/-- Embeds `Field<int>::valueRef()` / `valueCRef()`: reinterpret the resolved address
as an `int&` and read it — a 4-byte load decoded as two's complement. -/
def IntField.value (f : IntField) (m : Mem) : Int :=
  toI32 (readU32 m f.addr)

/-- Embeds `REMODEL_FORWARD_BINARY_RVALUE_OP(op)`: `this->valueCRef() op rhs`, for a
binary operator with `int` semantics `g`. -/
def IntField.binaryRvalueOp (f : IntField) (m : Mem) (g : Int → Int → Int)
    (rhs : Int) : Int :=
  g (f.value m) rhs

/-- The comparison forwarders (`REMODEL_DEF_BINARY_OP_FORWARDER`):
`this->valueCRef() op rhs` for a relational operator `rel`. -/
def IntField.compareOp (f : IntField) (m : Mem) (rel : Int → Int → Bool)
    (rhs : Int) : Bool :=
  rel (f.value m) rhs

/-- Embeds `REMODEL_FORWARD_BINARY_COMPOUND_ASSIGNMENT_OP(op)`:
`this->valueRef() op= rhs` — the combined value is stored back through the
resolved address (4-byte store of its two's-complement pattern). -/
def IntField.compoundAssignOp (f : IntField) (m : Mem) (g : Int → Int → Int)
    (rhs : Int) : Mem :=
  writeU32 m f.addr (encodeI32 (g (f.value m) rhs))

/-- Concrete type used by witnesses: `float const (* const volatile)[12] &`,
an lvalue reference to an array of 12 const-volatile pointers to const float. -/
def sampleDeclType : CppType :=
  .lref (.arr (.ptr (.base (.arithmetic "float" 4 true false false) true false)
    true true) 12)

/-- Concrete memory used by the vtable witness: the 8 bytes at address 0 hold
the value 256 (the vtable pointer), and the 8 bytes at address 272 = 256 + 2*8
(slot 2 of the vtable) hold the value 7. -/
def vtSampleMem : Mem :=
  fun a => if a = 1 then 1 else if a = 272 then 7 else 0

/-- Concrete memory used by the numeric-field witness: the backing `int` value
1000 (= 232 + 256 * 3) stored little-endian at address 0x2004. -/
def sampleMem : Mem :=
  fun a => if a = 0x2004 then 232 else if a = 0x2005 then 3 else 0

/-- Concrete `Field<int>` used by the numeric-field witness: parent wrapper
bound to raw address 0x2000, field declared at offset 4. -/
def sampleIntField : IntField :=
  ⟨⟨0x2000⟩, 4⟩

/-! ## Qualifier-stack lemmas -/

theorem analyzeAux_applyLayer (d : CppType) (l : Layer) (acc : List Layer) :
    analyzeAux (applyLayer d l) acc = analyzeAux d (l :: acc) := by
  cases l <;> rfl

theorem analyzeAux_applyStackImpl (S : List Layer) :
    ∀ (d : CppType) (acc : List Layer),
      analyzeAux (applyStackImpl d S) acc = analyzeAux d (S ++ acc) := by
  induction S with
  | nil => intro d acc; rfl
  | cons l rest ih =>
      intro d acc
      show analyzeAux (applyStackImpl (applyLayer d l) rest) acc = _
      rw [ih (applyLayer d l) acc, analyzeAux_applyLayer]
      rfl

theorem analyzeAux_base : ∀ (t : CppType) (acc : List Layer),
    ∃ k c v, (analyzeAux t acc).2 = CppType.base k c v
  | .base k c v, _ => ⟨k, c, v, rfl⟩
  | .ptr t _ _, _ => analyzeAux_base t _
  | .lref t, _ => analyzeAux_base t _
  | .rref t, _ => analyzeAux_base t _
  | .arr t _, _ => analyzeAux_base t _
  | .arrU t, _ => analyzeAux_base t _

theorem cloneQualifier_base (k k' : BaseKind) (c' v' : Bool) :
    cloneQualifier (.base k false false) (.base k' c' v') = .base k c' v' := by
  cases c' <;> cases v' <;> rfl

theorem analyzeQualifiers_applyStackImpl_base (k : BaseKind) (c v : Bool)
    (S : List Layer) :
    analyzeQualifiers (applyStackImpl (CppType.base k c v) S) =
      (S, CppType.base k c v) := by
  unfold analyzeQualifiers
  rw [analyzeAux_applyStackImpl S (CppType.base k c v) []]
  simp [analyzeAux]

/-- Lemma: `ApplyQualifierStack<B, B, S>` for a derived base `B` reduces to wrapping
`B` with the layers of `S`: stripping `B` (already a plain base) and cloning
its own cv back is the identity. -/
theorem applyQualifierStack_base (k : BaseKind) (c v : Bool) (S : List Layer) :
    applyQualifierStack (CppType.base k c v) (CppType.base k c v) S =
      applyStackImpl (CppType.base k c v) S := by
  unfold applyQualifierStack
  rw [show (analyzeQualifiers (CppType.base k c v)).2 = CppType.base k c v from rfl]
  rw [show removeConst (removeVolatile (CppType.base k c v)) =
      CppType.base k false false from rfl]
  rw [cloneQualifier_base]

theorem applyStackImpl_analyzeAux : ∀ (t : CppType) (acc : List Layer),
    applyStackImpl (analyzeAux t acc).2 (analyzeAux t acc).1 =
      applyStackImpl t acc
  | .base _ _ _, _ => rfl
  | .ptr t c v, acc => applyStackImpl_analyzeAux t (Layer.ptr c v :: acc)
  | .lref t, acc => applyStackImpl_analyzeAux t (Layer.lref :: acc)
  | .rref t, acc => applyStackImpl_analyzeAux t (Layer.rref :: acc)
  | .arr t n, acc => applyStackImpl_analyzeAux t (Layer.arr n :: acc)
  | .arrU t, acc => applyStackImpl_analyzeAux t (Layer.arrU :: acc)

/-- Reassembling a type from its own derived base and stack reproduces it. -/
theorem reassemble_eq_self (t : CppType) :
    applyStackImpl (analyzeQualifiers t).2 (analyzeQualifiers t).1 = t :=
  applyStackImpl_analyzeAux t []

/-- Claim C1: Qualifier-stack round-trip.  For every declared type whose derived
qualifier stack uses only supported layers (pointer / lvalue-reference /
fixed-size array, each with its own cv-marking), deriving the type obtained by
reapplying the stack `S` onto the base `B` (`ApplyQualifierStack<B, B, S>`)
yields exactly `(S, B)` again: same layer count, same per-layer kind and
cv-qualification, same base type. -/
theorem qualifier_roundtrip (t : CppType)
    (hsupp : ((analyzeQualifiers t).1.all Layer.isSupported) = true) :
    analyzeQualifiers
      (applyQualifierStack (analyzeQualifiers t).2 (analyzeQualifiers t).2
        (analyzeQualifiers t).1) =
      analyzeQualifiers t := by
  obtain ⟨k, c, v, hb⟩ := analyzeAux_base t []
  have hb' : (analyzeQualifiers t).2 = CppType.base k c v := hb
  rw [hb', applyQualifierStack_base, analyzeQualifiers_applyStackImpl_base, ← hb']

/-- Witness for C1 at the concrete declared type
`float const (* const volatile)[12] &`. -/
theorem qualifier_roundtrip_witness :
    ((analyzeQualifiers sampleDeclType).1.all Layer.isSupported) = true ∧
    analyzeQualifiers
      (applyQualifierStack (analyzeQualifiers sampleDeclType).2
        (analyzeQualifiers sampleDeclType).2 (analyzeQualifiers sampleDeclType).1) =
      analyzeQualifiers sampleDeclType :=
  ⟨by decide, qualifier_roundtrip sampleDeclType (by decide)⟩

/-! ## View rewriter (C3) and weak-view sizes (C2) -/

/-- Claim C3: View rewriter.  (1) If the derived base type of a declared type is
not a foreign-structure view (not `ClassWrapper`-derived), `RewriteWrappers`
returns the declared type unchanged (the base reassembled under the original
qualifier stack).  (2) If the base is an advanced wrapper with declared object
size `n`, the rewriter substitutes the same-sized `WeakWrapper` (a weak view of
`sizeof` exactly `n`), with the base's cv cloned onto it, and reapplies the
original qualifier stack.  (3) If the base is a wrapper with no fixed declared
size (not derived from `AdvancedClassWrapper`), the declaration fails at setup
time with the `static_assert` of `RewriteWrappersStep3`. -/
theorem rewriteWrappers_spec :
    (∀ t : CppType, isClassWrapperDerived (analyzeQualifiers t).2 = false →
      rewriteWrappers t = .ok t) ∧
    (∀ (t : CppType) (name : String) (n : Nat) (c v : Bool),
      (analyzeQualifiers t).2 = .base (.wrapper name (some n)) c v →
      rewriteWrappers t =
        .ok (applyStackImpl (.base (.weakWrapper n) c v) (analyzeQualifiers t).1) ∧
      sizeofType (CppType.base (.weakWrapper n) c v) = some n) ∧
    (∀ (t : CppType) (name : String) (c v : Bool),
      (analyzeQualifiers t).2 = .base (.wrapper name none) c v →
      rewriteWrappers t =
        .error
          "using wrapped types in fields requires usage of AdvancedClassWrapper as base") := by
  refine ⟨fun t h => ?_, fun t name n c v h => ⟨?_, rfl⟩, fun t name c v h => ?_⟩
  · unfold rewriteWrappers rewriteWrappersStep2
    rw [h]
    simp only [Bool.false_eq_true, if_false]
    obtain ⟨k, c, v, hb⟩ := analyzeAux_base t []
    have hb' : (analyzeQualifiers t).2 = CppType.base k c v := hb
    rw [hb', applyQualifierStack_base, ← hb', reassemble_eq_self]
  · unfold rewriteWrappers rewriteWrappersStep2
    rw [h]
    simp only [isClassWrapperDerived, if_true]
    unfold rewriteWrappersStep3
    simp only [advWrapperObjSize]
    unfold applyQualifierStack weakWrapperOf
    rw [show (analyzeQualifiers (CppType.base (.weakWrapper n) false false)).2 =
        CppType.base (.weakWrapper n) false false from rfl]
    rw [show removeConst (removeVolatile (CppType.base (.weakWrapper n) false false)) =
        CppType.base (.weakWrapper n) false false from rfl]
    rw [cloneQualifier_base]
  · unfold rewriteWrappers rewriteWrappersStep2
    rw [h]
    simp only [isClassWrapperDerived, if_true]
    unfold rewriteWrappersStep3
    simp only [advWrapperObjSize]

/-- Witness for C3: a non-view declared type (`uint8_t`) is reassembled
unchanged; a pointer to an advanced wrapper of size 8 is rewritten to a pointer
to the 8-byte weak wrapper; a pointer to a simple (sizeless) wrapper is a setup
error. -/
theorem rewriteWrappers_spec_witness :
    rewriteWrappers (.base (.arithmetic "uint8_t" 1 false true false) false false) =
      .ok (.base (.arithmetic "uint8_t" 1 false true false) false false) ∧
    (rewriteWrappers (.ptr (.base (.wrapper "CustomString" (some 8)) false false) false false) =
      .ok (applyStackImpl (.base (.weakWrapper 8) false false) [Layer.ptr false false]) ∧
     sizeofType (CppType.base (.weakWrapper 8) false false) = some 8) ∧
    rewriteWrappers (.ptr (.base (.wrapper "Dog" none) false false) false false) =
      .error
        "using wrapped types in fields requires usage of AdvancedClassWrapper as base" :=
  ⟨rewriteWrappers_spec.1 _ (by decide),
   rewriteWrappers_spec.2.1
     (.ptr (.base (.wrapper "CustomString" (some 8)) false false) false false)
     "CustomString" 8 false false (by decide),
   rewriteWrappers_spec.2.2
     (.ptr (.base (.wrapper "Dog" none) false false) false false)
     "Dog" false false (by decide)⟩

theorem sizeofType_applyLayer_congr (l : Layer) (d1 d2 : CppType)
    (h : sizeofType d1 = sizeofType d2) :
    sizeofType (applyLayer d1 l) = sizeofType (applyLayer d2 l) := by
  cases l <;> simp [applyLayer, sizeofType, h]

theorem sizeofType_applyStackImpl_congr : ∀ (S : List Layer) (d1 d2 : CppType),
    sizeofType d1 = sizeofType d2 →
    sizeofType (applyStackImpl d1 S) = sizeofType (applyStackImpl d2 S)
  | [], _, _, h => h
  | l :: rest, d1, d2, h =>
      sizeofType_applyStackImpl_congr rest (applyLayer d1 l) (applyLayer d2 l)
        (sizeofType_applyLayer_congr l d1 d2 h)

/-- Claim C2: Weak-view size invariant.  (1) For every view type with declared
object size `n`, the weak view occupies exactly `n` bytes (for any
cv-qualification).  (2) An array of 12 weak views occupies exactly `12 * n`
bytes.  (3) Footprint preservation under nesting: wrapping the weak view in an
arbitrary qualifier stack (pointers, arrays, references) yields exactly the
footprint the stack would yield over any real type of size `n`. -/
theorem weakWrapper_size_invariant :
    (∀ (n : Nat) (c v : Bool),
      sizeofType (CppType.base (.weakWrapper n) c v) = some n) ∧
    (∀ n : Nat,
      sizeofType (CppType.arr (CppType.base (.weakWrapper n) false false) 12) =
        some (12 * n)) ∧
    (∀ (S : List Layer) (n : Nat) (real : CppType), sizeofType real = some n →
      sizeofType (applyStackImpl (CppType.base (.weakWrapper n) false false) S) =
        sizeofType (applyStackImpl real S)) := by
  refine ⟨fun n c v => rfl, fun n => rfl, fun S n real h => ?_⟩
  exact sizeofType_applyStackImpl_congr S _ real (by simp [sizeofType, sizeofBase, h])

/-- Witness for C2 with `n = 8`, nesting stack `(*)[12]`, and a real trivial
class of size 8 standing for the foreign object. -/
theorem weakWrapper_size_invariant_witness :
    sizeofType (CppType.base (.weakWrapper 8) false false) = some 8 ∧
    sizeofType (CppType.arr (CppType.base (.weakWrapper 8) false false) 12) =
      some 96 ∧
    sizeofType (CppType.base (.classTy "CustomString" 8 true) false false) =
      some 8 ∧
    sizeofType (applyStackImpl (CppType.base (.weakWrapper 8) false false)
        [Layer.ptr false false, Layer.arr 12]) =
      sizeofType (applyStackImpl (CppType.base (.classTy "CustomString" 8 true)
        false false) [Layer.ptr false false, Layer.arr 12]) :=
  ⟨weakWrapper_size_invariant.1 8 false false,
   weakWrapper_size_invariant.2.1 8,
   by decide,
   weakWrapper_size_invariant.2.2 [Layer.ptr false false, Layer.arr 12] 8
     (CppType.base (.classTy "CustomString" 8 true) false false) (by decide)⟩

/-! ## Address resolvers (C5, C6) -/

/-- Claim C5: Offset resolver.  For every base address and every byte offset `n`
(including negative `n`), `OffsGetter{n}` resolves to exactly `base + n` in
fixed-width (64-bit, modular) address arithmetic.  The getter is a pure
function of the base address and the stored offset alone. -/
theorem offsGetter_resolve (base : Nat) (n : Int) (hb : base < 2 ^ 64) :
    (offsGetter n base : Int) = ((base : Int) + n) % (2 ^ 64) := by
  unfold offsGetter ptrdiffToUintptr
  have h64n : (2 : Nat) ^ 64 = 18446744073709551616 := by norm_num
  have h64i : (2 : Int) ^ 64 = 18446744073709551616 := by norm_num
  rw [h64n, h64i]
  omega

/-- Witness for C5 at base 1000 and negative offset −16 (resolves to 984). -/
theorem offsGetter_resolve_witness :
    1000 < 2 ^ 64 ∧
    (offsGetter (-16) 1000 : Int) = ((1000 : Int) + -16) % (2 ^ 64) ∧
    offsGetter (-16) 1000 = 984 :=
  ⟨by norm_num, offsGetter_resolve 1000 (-16) (by norm_num), by decide⟩

/-- Claim C6: Virtual-table resolver.  If the `uintptr_t`-sized cell at
`base + vftableOffset` holds the vtable pointer `p` and the cell at
`p + idx * sizeof(uintptr_t)` holds `s`, then
`VfTableGetter{idx, vftableOffset}` resolves `base` to exactly `s` — the value
stored in slot `idx` — by exactly the two loads shown in its definition. -/
theorem vfTableGetter_resolve (idx voff base p s : Nat) (m : Mem)
    (h1 : readU64 m ((base + voff) % 2 ^ 64) = p)
    (h2 : readU64 m ((p + idx * 8) % 2 ^ 64) = s) :
    vfTableGetter idx voff m base = s := by
  unfold vfTableGetter
  rw [h1, h2]

/-- Witness for C6 on a concrete memory: the vtable pointer 256 stored at
address 0, and the value 7 stored in slot 2 (address 256 + 2·8 = 272). -/
theorem vfTableGetter_resolve_witness :
    readU64 vtSampleMem ((0 + 0) % 2 ^ 64) = 256 ∧
    readU64 vtSampleMem ((256 + 2 * 8) % 2 ^ 64) = 7 ∧
    vfTableGetter 2 0 vtSampleMem 0 = 7 :=
  ⟨by decide, by decide,
   vfTableGetter_resolve 2 0 0 256 7 vtSampleMem (by decide) (by decide)⟩

/-! ## Module lookup (C9) and null-parent propagation (C10) -/

/-- Claim C9: Module lookup failure semantics.  `Module::getModule` is a total
function of the platform lookup result: when `obtainModuleHandle` finds no
loaded module (returns null), it returns an empty optional — no exception, no
crash; when the lookup succeeds it returns an optional containing a `Module`
wrapper bound to the returned handle address. -/
theorem getModule_lookup (obtainModuleHandle : String → Nat)
    (moduleName : String) :
    (obtainModuleHandle moduleName = 0 →
      getModule obtainModuleHandle moduleName = none) ∧
    (obtainModuleHandle moduleName ≠ 0 →
      getModule obtainModuleHandle moduleName =
        some ⟨obtainModuleHandle moduleName⟩) := by
  constructor <;> intro h <;> simp [getModule, h]

/-- Witness for C9 with a lookup that fails and one that returns 0x7ff0. -/
theorem getModule_lookup_witness :
    getModule (fun _ => 0) "ntdll.dll" = none ∧
    getModule (fun _ => 0x7ff0) "ntdll.dll" = some ⟨0x7ff0⟩ :=
  ⟨(getModule_lookup (fun _ => 0) "ntdll.dll").1 rfl,
   (getModule_lookup (fun _ => 0x7ff0) "ntdll.dll").2 (by decide)⟩

/-- Claim C10: Null-parent base propagation.  `FieldBase::rawPtr` hands the
getter the address 0 when the parent pointer is null, without dereferencing
anything; the `Global` singleton's bound raw address is null; and consequently
a field anchored on `Global` (or on a null parent) with an `Offset(n)` resolver
resolves to the absolute address `n`. -/
theorem null_parent_base_propagation :
    (∀ g : Nat → Nat, rawPtr none g = g 0) ∧
    globalInstance.m_raw = 0 ∧
    (∀ n : Nat, n < 2 ^ 64 →
      rawPtr (some globalInstance) (offsGetter (n : Int)) = n) ∧
    (∀ n : Nat, n < 2 ^ 64 → rawPtr none (offsGetter (n : Int)) = n) := by
  have key : ∀ n : Nat, n < 2 ^ 64 → offsGetter (n : Int) 0 = n := by
    intro n hn
    unfold offsGetter ptrdiffToUintptr
    have h64n : (2 : Nat) ^ 64 = 18446744073709551616 := by norm_num
    have h64i : (2 : Int) ^ 64 = 18446744073709551616 := by norm_num
    rw [h64n, h64i]
    omega
  exact ⟨fun g => rfl, rfl, fun n hn => key n hn, fun n hn => key n hn⟩

/-- Witness for C10 at offset 0x1234: a `Global`-anchored field resolves to the
absolute address 0x1234. -/
theorem null_parent_base_propagation_witness :
    rawPtr none (fun a => a + 3) = 3 ∧
    (0x1234 : Nat) < 2 ^ 64 ∧
    rawPtr (some globalInstance) (offsGetter ((0x1234 : Nat) : Int)) = 0x1234 :=
  ⟨null_parent_base_propagation.1 (fun a => a + 3),
   by norm_num,
   null_parent_base_propagation.2.2.1 0x1234 (by norm_num)⟩

/-! ## Numeric capability set (C7) -/

/-- Claim C7, counterexample: the numeric specialization's flag set is not the
one the claim states.  For `int` the code does not forward any logical
operator (`LOG_AND` missing, though the claim includes the full logical set),
and for `unsigned int` the code additionally suppresses unary minus, a
suppression absent from the claim's list. -/
theorem numeric_capability_counterexample :
    numericFieldFlags (.arithmetic "int" 4 false false false) ≠
      specNumericFlags (.arithmetic "int" 4 false false false) ∧
    ¬ operators.hasFlag (numericFieldFlags (.arithmetic "int" 4 false false false))
        operators.LOG_AND ∧
    operators.hasFlag (specNumericFlags (.arithmetic "int" 4 false false false))
        operators.LOG_AND ∧
    ¬ operators.hasFlag
        (numericFieldFlags (.arithmetic "unsigned int" 4 false true false))
        operators.UNARY_MINUS ∧
    operators.hasFlag
        (specNumericFlags (.arithmetic "unsigned int" 4 false true false))
        operators.UNARY_MINUS := by
  refine ⟨?_, ?_, ?_, ?_, ?_⟩ <;> decide

/-- Claim C7, amended: per-operator characterization of the numeric
specialization's capability set.  For every arithmetic or `int`-convertible
enumeration base type, the specialization forwards assignment,
add/sub/mul/div/mod, unary plus, comma, the six comparison operators, and
bitwise or/and/xor/shifts; unary minus is forwarded iff the type is not
unsigned; increment/decrement iff the type is neither `bool` nor an
enumeration; bitwise-not iff the type is neither floating-point nor `bool`;
and no logical operator (`!`, `&&`, `||`) is forwarded (those only work
through implicit conversion, not through the dispatched operator set). -/
theorem numeric_capability_amended (k : BaseKind)
    (hk : isArithmeticOrConvertibleEnum k = true) :
    (operators.hasFlag (numericFieldFlags k) operators.ASSIGN ∧
     operators.hasFlag (numericFieldFlags k) operators.ADD ∧
     operators.hasFlag (numericFieldFlags k) operators.SUBTRACT ∧
     operators.hasFlag (numericFieldFlags k) operators.MULTIPLY ∧
     operators.hasFlag (numericFieldFlags k) operators.DIVIDE ∧
     operators.hasFlag (numericFieldFlags k) operators.MODULO ∧
     operators.hasFlag (numericFieldFlags k) operators.UNARY_PLUS ∧
     operators.hasFlag (numericFieldFlags k) operators.COMMA) ∧
    (operators.hasFlag (numericFieldFlags k) operators.UNARY_MINUS ↔
      k.isUnsignedTrait = false) ∧
    (operators.hasFlag (numericFieldFlags k) operators.INCREMENT ↔
      (k.isBoolTrait = false ∧ k.isEnumTrait = false)) ∧
    (operators.hasFlag (numericFieldFlags k) operators.DECREMENT ↔
      (k.isBoolTrait = false ∧ k.isEnumTrait = false)) ∧
    (operators.hasFlag (numericFieldFlags k) operators.BITWISE_OR ∧
     operators.hasFlag (numericFieldFlags k) operators.BITWISE_AND ∧
     operators.hasFlag (numericFieldFlags k) operators.BITWISE_XOR ∧
     operators.hasFlag (numericFieldFlags k) operators.BITWISE_LEFT_SHIFT ∧
     operators.hasFlag (numericFieldFlags k) operators.BITWISE_RIGHT_SHIFT) ∧
    (operators.hasFlag (numericFieldFlags k) operators.BITWISE_NOT ↔
      (k.isFloatTrait = false ∧ k.isBoolTrait = false)) ∧
    (operators.hasFlag (numericFieldFlags k) operators.EQ_COMPARE ∧
     operators.hasFlag (numericFieldFlags k) operators.NEQ_COMPARE ∧
     operators.hasFlag (numericFieldFlags k) operators.GT_COMPARE ∧
     operators.hasFlag (numericFieldFlags k) operators.LT_COMPARE ∧
     operators.hasFlag (numericFieldFlags k) operators.GTE_COMPARE ∧
     operators.hasFlag (numericFieldFlags k) operators.LTE_COMPARE) ∧
    (¬ operators.hasFlag (numericFieldFlags k) operators.LOG_NOT ∧
     ¬ operators.hasFlag (numericFieldFlags k) operators.LOG_AND ∧
     ¬ operators.hasFlag (numericFieldFlags k) operators.LOG_OR) := by
  cases k with
  | arithmetic name size f u b =>
      have hf : numericFieldFlags (.arithmetic name size f u b) =
          numericFieldFlags (.arithmetic "" 0 f u b) := rfl
      have h1 : BaseKind.isUnsignedTrait (.arithmetic name size f u b) = u := rfl
      have h2 : BaseKind.isBoolTrait (.arithmetic name size f u b) = b := rfl
      have h3 : BaseKind.isEnumTrait (.arithmetic name size f u b) = false := rfl
      have h4 : BaseKind.isFloatTrait (.arithmetic name size f u b) = f := rfl
      rw [hf, h1, h2, h3, h4]
      cases f <;> cases u <;> cases b <;> decide
  | enumeration name size conv =>
      have hc : conv = true := by
        simpa [isArithmeticOrConvertibleEnum] using hk
      subst hc
      have hf : numericFieldFlags (.enumeration name size true) =
          numericFieldFlags (.enumeration "" 0 true) := rfl
      have h1 : BaseKind.isUnsignedTrait (.enumeration name size true) = false := rfl
      have h2 : BaseKind.isBoolTrait (.enumeration name size true) = false := rfl
      have h3 : BaseKind.isEnumTrait (.enumeration name size true) = true := rfl
      have h4 : BaseKind.isFloatTrait (.enumeration name size true) = false := rfl
      rw [hf, h1, h2, h3, h4]
      decide
  | classTy name size isTrivial => simp [isArithmeticOrConvertibleEnum] at hk
  | wrapper name objSize => simp [isArithmeticOrConvertibleEnum] at hk
  | weakWrapper objSize => simp [isArithmeticOrConvertibleEnum] at hk

/-- Witness for the amended C7 at `int`. -/
theorem numeric_capability_amended_witness :
    isArithmeticOrConvertibleEnum (.arithmetic "int" 4 false false false) = true ∧
    operators.hasFlag (numericFieldFlags (.arithmetic "int" 4 false false false))
      operators.ASSIGN :=
  ⟨rfl, (numeric_capability_amended (.arithmetic "int" 4 false false false) rfl).1.1⟩

/-! ## Reference-qualified declarations (C8) -/

/-- Claim C8, counterexample: `Field<int&>` is accepted at setup.  The declared
type with an outermost (lvalue) reference layer constructs a view — the
reference is stripped by `remove_reference_t`, the extra-dereference flag
`kDoExtraDref` is set, and dispatch proceeds on `int` — instead of being
rejected. -/
theorem reference_field_counterexample :
    fieldSetup
        (CppType.lref (.base (.arithmetic "int" 4 false false false) false false)) =
      .ok (.base (.arithmetic "int" 4 false false false) false false, true) :=
  rfl

/-- Claim C8, amended: for every declared type `T` that is not itself a
reference, declaring `Field<T&>` is accepted exactly when `Field<T>` is: the
reference is stripped, the same rewritten type is dispatched, and the only
difference is that `kDoExtraDref` is set (the stored bytes are treated as a
pointer that is dereferenced once more on each access).  In particular the
dispatcher does not reject reference-qualified declarations at setup time. -/
theorem reference_field_amended (t : CppType) (h : isReference t = false) :
    fieldSetup (CppType.lref t) =
      Except.map (fun p => (p.1, true)) (fieldSetup t) := by
  have hrr : removeReference t = t := by
    cases t <;> simp_all [isReference, removeReference]
  unfold fieldSetup
  rw [show removeReference (CppType.lref t) = t from rfl, hrr]
  cases hw : rewriteWrappers t with
  | error e => rfl
  | ok r =>
      cases hm : (fieldImplKind r).setupErrorMsg with
      | none => simp only [hm]; simp [isReference, Except.map]
      | some e => simp only [hm]; simp [Except.map]

/-- Witness for the amended C8 at `T = int`. -/
theorem reference_field_amended_witness :
    isReference (CppType.base (.arithmetic "int" 4 false false false) false false) =
      false ∧
    fieldSetup
        (CppType.lref (.base (.arithmetic "int" 4 false false false) false false)) =
      Except.map (fun p => (p.1, true))
        (fieldSetup (.base (.arithmetic "int" 4 false false false) false false)) :=
  ⟨rfl,
   reference_field_amended
     (.base (.arithmetic "int" 4 false false false) false false) rfl⟩

/-! ## Numeric forwarding fidelity (C4) -/

theorem writeBytesLE_lt : ∀ (k : Nat) (m : Mem) (a v x : Nat), x < a →
    writeBytesLE m a v k x = m x
  | 0, _, _, _, _, _ => rfl
  | k + 1, m, a, v, x, hx => by
      show writeBytesLE (fun y => if y = a then v % 256 else m y) (a + 1) (v / 256) k x
        = m x
      rw [writeBytesLE_lt k _ (a + 1) (v / 256) x (by omega)]
      simp only [if_neg (by omega : ¬ x = a)]

theorem readBytesLE_writeBytesLE : ∀ (k : Nat) (m : Mem) (a v : Nat),
    readBytesLE (writeBytesLE m a v k) a k = v % 256 ^ k
  | 0, _, _, v => by simp [readBytesLE, writeBytesLE, Nat.mod_one]
  | k + 1, m, a, v => by
      show readBytesLE
          (writeBytesLE (fun y => if y = a then v % 256 else m y) (a + 1) (v / 256) k)
          a (k + 1) = v % 256 ^ (k + 1)
      rw [readBytesLE]
      rw [writeBytesLE_lt k _ (a + 1) (v / 256) a (by omega)]
      simp only [eq_self_iff_true, if_true]
      rw [readBytesLE_writeBytesLE k _ (a + 1) (v / 256)]
      have h1 : v % 256 % 256 = v % 256 := by omega
      rw [h1, pow_succ', Nat.mod_mul]

theorem encodeI32_lt (x : Int) : encodeI32 x < 2 ^ 32 := by
  unfold encodeI32
  omega

theorem toI32_encodeI32 (x : Int) (hx : inI32Range x) : toI32 (encodeI32 x) = x := by
  obtain ⟨h1, h2⟩ := hx
  unfold toI32 encodeI32
  split <;> omega

/-- Reading back a just-written 4-byte value yields it modulo `2^32`. -/
theorem readU32_writeU32 (m : Mem) (a v : Nat) :
    readU32 (writeU32 m a v) a = v % 2 ^ 32 := by
  unfold readU32 writeU32
  rw [readBytesLE_writeBytesLE]
  norm_num

/-- Claim C4: Numeric forwarding fidelity.  For a `Field<int>` view resolving to
an address whose 4 bytes hold the two's-complement pattern of the backing
value `x`: (1) reading through the view yields exactly `x`; (2) every
forwarded binary rvalue operator (`valueCRef() op rhs`) yields the same result
as applying the operator directly to `x`; (3) every forwarded comparison
yields the same result as comparing `x` directly; (4) after a forwarded
compound assignment (`valueRef() op= rhs`), the backing bytes decode to
exactly the directly computed result; (5) operations against another view
over a backing value `x2` equal the direct operation on `x` and `x2`. -/
theorem numeric_forwarding_fidelity (f : IntField) (m : Mem) (x : Int)
    (hx : inI32Range x) (hm : readU32 m f.addr = encodeI32 x) :
    f.value m = x ∧
    (∀ (g : Int → Int → Int) (rhs : Int), f.binaryRvalueOp m g rhs = g x rhs) ∧
    (∀ (rel : Int → Int → Bool) (rhs : Int), f.compareOp m rel rhs = rel x rhs) ∧
    (∀ (g : Int → Int → Int) (rhs : Int), inI32Range (g x rhs) →
      toI32 (readU32 (f.compoundAssignOp m g rhs) f.addr) = g x rhs) ∧
    (∀ (f2 : IntField) (x2 : Int), inI32Range x2 →
      readU32 m f2.addr = encodeI32 x2 →
      ∀ g : Int → Int → Int, g (f.value m) (f2.value m) = g x x2) := by
  have hv : f.value m = x := by
    unfold IntField.value
    rw [hm, toI32_encodeI32 x hx]
  refine ⟨hv, fun g rhs => ?_, fun rel rhs => ?_, fun g rhs hr => ?_,
    fun f2 x2 hx2 hm2 g => ?_⟩
  · unfold IntField.binaryRvalueOp
    rw [hv]
  · unfold IntField.compareOp
    rw [hv]
  · unfold IntField.compoundAssignOp
    rw [hv, readU32_writeU32,
      Nat.mod_eq_of_lt (encodeI32_lt (g x rhs)), toI32_encodeI32 _ hr]
  · have hv2 : f2.value m = x2 := by
      unfold IntField.value
      rw [hm2, toI32_encodeI32 x2 hx2]
    rw [hv, hv2]

/-- Witness for C4 on a concrete backing value 1000 at offset 4 of a wrapper
bound to address 0x2000: `view + 100 == 1100`, and after `view %= 100` the
backing bytes decode to 0. -/
theorem numeric_forwarding_fidelity_witness :
    inI32Range 1000 ∧
    readU32 sampleMem sampleIntField.addr = encodeI32 1000 ∧
    IntField.binaryRvalueOp sampleIntField sampleMem i32add 100 = i32add 1000 100 ∧
    toI32 (readU32 (IntField.compoundAssignOp sampleIntField sampleMem i32mod 100)
      sampleIntField.addr) = i32mod 1000 100 ∧
    i32add 1000 100 = 1100 ∧ i32mod 1000 100 = 0 :=
  ⟨by decide, by decide,
   (numeric_forwarding_fidelity sampleIntField sampleMem 1000 (by decide)
     (by decide)).2.1 i32add 100,
   (numeric_forwarding_fidelity sampleIntField sampleMem 1000 (by decide)
     (by decide)).2.2.2.1 i32mod 100 (by decide),
   by decide, by decide⟩

end Remodel
